import Mathlib

/-!
Verification of `WhisperApp/Scripts/check_networking_symbols.py`, a build-time
compliance gate that scans a compiled binary's symbol dump and the source tree
for forbidden networking patterns.

Shallow embedding: the pure decision logic of the script is translated to Lean
functions.  Interaction with the outside world is made explicit as input data:
 * the result of spawning an external tool (`nm` / `objdump`) is an
   `Except String ProcResult` — `Except.error` models the spawn raising an
   exception (tool missing, permission denied), `Except.ok` a completed run
   with an exit status and captured standard output;
 * the directory walk is an input listing of `SrcFile`s in traversal order;
   a file whose `content` is `none` models a file that could not be opened
   or decoded as text (the `except` branch of the per-file `try`).
-/

/-- A completed external process invocation: exit status and captured stdout,
as produced by `subprocess.run(..., capture_output=True, text=True)`. -/
structure ProcResult where
  returncode : Int
  stdout : String
deriving DecidableEq

/-- The list `FORBIDDEN_SYMBOLS` from the script: patterns a binary's symbol
dump must not contain. -/
def FORBIDDEN_SYMBOLS : List String :=
  [ "URLSession",
    "NSURLSession",
    "NSURLConnection",
    "CFSocket",
    "Network.framework",
    "socket(",
    "connect(",
    "bind(",
    "listen(",
    "accept(",
    "send(",
    "recv(",
    "sendto(",
    "recvfrom(",
    "CFNetworkExecuteProxyAutoConfigurationURL",
    "CFNetworkCopyProxiesForURL",
    "CFHTTPMessage",
    "CFHTTPStream",
    "SCNetworkReachability",
    "NSNetService",
    "NSStream",
    "CFStream",
    "CFReadStream",
    "CFWriteStream" ]

/-- The list `forbidden_imports` from `check_source_code`: patterns a source
file's text must not contain. -/
def forbidden_imports : List String :=
  [ "import Network",
    "import CFNetwork",
    "@import Network",
    "@import CFNetwork",
    "#import <CFNetwork/",
    "#import <Network/",
    "URLSession",
    "NSURLSession",
    "NSURLConnection" ]

/-- `subListChars pat hay`: `pat` occurs as a contiguous run inside `hay`.
This is Python's substring test `pat in hay` on the underlying characters. -/
def subListChars (pat : List Char) : List Char → Bool
  | [] => pat.isEmpty
  | c :: rest => pat.isPrefixOf (c :: rest) || subListChars pat rest

/-- Python's `pat in hay` for strings: substring containment. -/
def strIn (pat hay : String) : Bool :=
  subListChars pat.data hay.data

/-- Outcome of `check_binary_for_symbols`, with the observable events made
explicit: the boolean return value, which external tools were invoked
(spawn attempted), the `found_symbols` list that is printed on failure, and
whether a warning/error diagnostic was printed. -/
structure BinaryScan where
  passed : Bool
  invokedNm : Bool
  invokedObjdump : Bool
  foundSymbols : List String
  warned : Bool
deriving DecidableEq

/-- `check_binary_for_symbols(binary_path)` from the script.
`binaryExists` is `os.path.exists(binary_path)`; `nmRun` and `objdumpRun`
are the outcomes the environment would give to the two `subprocess.run`
calls (`Except.error` = the spawn raises, caught by the outer `except`). -/
def check_binary_for_symbols (binaryExists : Bool)
    (nmRun objdumpRun : Except String ProcResult) : BinaryScan :=
  if !binaryExists then
    { passed := true, invokedNm := false, invokedObjdump := false,
      foundSymbols := [], warned := true }
  else
    match nmRun with
    | Except.error _ =>
        { passed := true, invokedNm := true, invokedObjdump := false,
          foundSymbols := [], warned := true }
    | Except.ok r1 =>
        if r1.returncode != 0 then
          match objdumpRun with
          | Except.error _ =>
              { passed := true, invokedNm := true, invokedObjdump := true,
                foundSymbols := [], warned := true }
          | Except.ok r2 =>
              if r2.returncode != 0 then
                { passed := true, invokedNm := true, invokedObjdump := true,
                  foundSymbols := [], warned := true }
              else
                let found := FORBIDDEN_SYMBOLS.filter (fun s => strIn s r2.stdout)
                { passed := found.isEmpty, invokedNm := true, invokedObjdump := true,
                  foundSymbols := found, warned := false }
        else
          let found := FORBIDDEN_SYMBOLS.filter (fun s => strIn s r1.stdout)
          { passed := found.isEmpty, invokedNm := true, invokedObjdump := false,
            foundSymbols := found, warned := false }

/-- One file met by the `os.walk` traversal in `check_source_code`:
its joined path, its bare file name (used for the extension test), and its
text content — `none` when `open`/`read` raises and the file is skipped. -/
structure SrcFile where
  path : String
  name : String
  content : Option String
deriving DecidableEq

/-- `file.endswith(('.swift', '.m', '.mm', '.h'))` from the script: the file
name ends with one of the four eligible extensions (suffix test on the
character sequence). -/
def eligibleExt (name : String) : Bool :=
  ".swift".data.isSuffixOf name.data || ".m".data.isSuffixOf name.data ||
    ".mm".data.isSuffixOf name.data || ".h".data.isSuffixOf name.data

/-- The issues one file contributes to `found_issues`: for an eligible,
readable file, one entry `f"{file_path}: {forbidden}"` per pattern of
`forbidden_imports` (in registry order) contained in the content. -/
def fileIssues (f : SrcFile) : List String :=
  if eligibleExt f.name then
    match f.content with
    | none => []
    | some content =>
        (forbidden_imports.filter (fun p => strIn p content)).map
          (fun p => f.path ++ ": " ++ p)
  else []

/-- Whether a file triggers the per-file `except` warning: it passed the
extension test (so the script tries to open it) and reading failed. -/
def fileWarn (f : SrcFile) : Bool :=
  eligibleExt f.name && f.content.isNone

/-- Outcome of `check_source_code`: the boolean return value, the ordered
`found_issues` list, and the paths for which a read warning was printed. -/
structure SourceScan where
  passed : Bool
  issues : List String
  warnings : List String
deriving DecidableEq

/-- `check_source_code()` from the script, over an explicit traversal listing
`files` (the concatenation, in `os.walk` order, of the files met under the
existing source roots).  `found_issues` is the flattened per-file issue
lists; the return value is true iff it is empty. -/
def check_source_code (files : List SrcFile) : SourceScan :=
  { passed := ((files.map fileIssues).flatten).isEmpty,
    issues := (files.map fileIssues).flatten,
    warnings := (files.filter fileWarn).map (fun f => f.path) }

/-- `main()` from the script: exit code of the whole run.  `binaryArg` is
`none` when no command-line path is supplied; otherwise it carries the
existence of the path and the environment's outcomes for the two tool
invocations.  `sys.exit(1)` iff `not source_ok or not binary_ok`. -/
def main_exit (files : List SrcFile)
    (binaryArg : Option (Bool × Except String ProcResult × Except String ProcResult)) :
    Nat :=
  if !(check_source_code files).passed ||
      !(match binaryArg with
        | none => true
        | some (ex, nmRun, objdumpRun) =>
            (check_binary_for_symbols ex nmRun objdumpRun).passed) then 1 else 0

/-- Modelled from the spec (§3 Verdict): `overallPassed` is the conjunction of
`sourcePassed` and `binaryPassed`, the binary conjunct being vacuously true
when no binary path was supplied.  Used to compare the code's exit code
against the spec's aggregation. -/
def overallPassed_spec (files : List SrcFile)
    (binaryArg : Option (Bool × Except String ProcResult × Except String ProcResult)) :
    Bool :=
  (check_source_code files).passed &&
    (match binaryArg with
     | none => true
     | some (ex, nmRun, objdumpRun) =>
         (check_binary_for_symbols ex nmRun objdumpRun).passed)

/-- A source file whose text contains the pattern `import Network`. -/
def fileA : SrcFile := { path := "A.swift", name := "A.swift", content := some "import Network" }

/-- A source file whose text contains the pattern `import CFNetwork`. -/
def fileB : SrcFile := { path := "B.swift", name := "B.swift", content := some "import CFNetwork" }

/-- A source file containing two distinct forbidden patterns. -/
def fileW : SrcFile :=
  { path := "W.swift", name := "W.swift", content := some "import Network NSURLConnection" }

/-- An eligible source file that could not be read. -/
def fileBad : SrcFile := { path := "bad.swift", name := "bad.swift", content := none }

/-- A source file containing the forbidden pattern `NSURLConnection`. -/
def fileV : SrcFile := { path := "V.swift", name := "V.swift", content := some "NSURLConnection" }

/-- C1, counterexample: the two pattern lists are not disjoint — the literal
"URLSession" appears both in `FORBIDDEN_SYMBOLS` and in `forbidden_imports`. -/
theorem C1_counterexample :
    "URLSession" ∈ FORBIDDEN_SYMBOLS ∧ "URLSession" ∈ forbidden_imports := by
  decide

/-- C1, amended: the two lists overlap in exactly three patterns —
"URLSession", "NSURLSession" and "NSURLConnection"; every other pattern
belongs to exactly one of the two lists. -/
theorem C1_overlap :
    FORBIDDEN_SYMBOLS.filter (fun s => forbidden_imports.contains s)
      = ["URLSession", "NSURLSession", "NSURLConnection"] ∧
    forbidden_imports.filter (fun s => FORBIDDEN_SYMBOLS.contains s)
      = ["URLSession", "NSURLSession", "NSURLConnection"] := by
  decide

/-- A list's `isEmpty` is `false` exactly when the list is nonempty. -/
theorem isEmpty_false_iff {α : Type} (l : List α) : l.isEmpty = false ↔ l ≠ [] := by
  cases l <;> simp

/-- A `filter` is nonempty exactly when some element satisfies the test. -/
theorem filter_ne_nil_iff {α : Type} (p : α → Bool) (l : List α) :
    l.filter p ≠ [] ↔ ∃ a ∈ l, p a = true := by
  rw [Ne, List.filter_eq_nil_iff]
  push_neg
  simp

/-- `fileIssues` is nonempty exactly when the file is eligible, readable, and
its content contains some source-text pattern. -/
theorem fileIssues_ne_nil_iff (f : SrcFile) :
    fileIssues f ≠ [] ↔ eligibleExt f.name = true ∧
      ∃ c, f.content = some c ∧ ∃ p ∈ forbidden_imports, strIn p c = true := by
  unfold fileIssues
  cases he : eligibleExt f.name with
  | false => simp [he]
  | true =>
    cases hc : f.content with
    | none => simp [he, hc]
    | some c => simp [he, hc, filter_ne_nil_iff]

/-- The source scan returns `false` exactly when its issue list is nonempty. -/
theorem source_passed_false_iff (files : List SrcFile) :
    (check_source_code files).passed = false ↔ (check_source_code files).issues ≠ [] :=
  isEmpty_false_iff _

/-- The source scan fails exactly when some traversed file is eligible,
readable, and contains a forbidden import pattern. -/
theorem source_failed_iff (files : List SrcFile) :
    (check_source_code files).passed = false ↔
      ∃ f ∈ files, eligibleExt f.name = true ∧ ∃ c, f.content = some c ∧
        ∃ p ∈ forbidden_imports, strIn p c = true := by
  rw [source_passed_false_iff]
  show (files.map fileIssues).flatten ≠ [] ↔ _
  rw [Ne, List.flatten_eq_nil_iff]
  push_neg
  constructor
  · rintro ⟨l, hl, hne⟩
    obtain ⟨f, hf, rfl⟩ := List.mem_map.mp hl
    exact ⟨f, hf, (fileIssues_ne_nil_iff f).mp hne⟩
  · rintro ⟨f, hf, hprops⟩
    exact ⟨fileIssues f, List.mem_map.mpr ⟨f, hf, rfl⟩, (fileIssues_ne_nil_iff f).mpr hprops⟩

/-- The binary scanner returns `false` exactly when its collected symbol list
is nonempty. -/
theorem binary_passed_false_iff (ex : Bool) (nmRun objdumpRun : Except String ProcResult) :
    (check_binary_for_symbols ex nmRun objdumpRun).passed = false ↔
      (check_binary_for_symbols ex nmRun objdumpRun).foundSymbols ≠ [] := by
  cases ex with
  | false => simp [check_binary_for_symbols]
  | true =>
    cases nmRun with
    | error e => simp [check_binary_for_symbols]
    | ok r1 =>
      cases h1 : (r1.returncode != 0) with
      | false => simp [check_binary_for_symbols, h1, isEmpty_false_iff]
      | true =>
        cases objdumpRun with
        | error e => simp [check_binary_for_symbols, h1]
        | ok r2 =>
          cases h2 : (r2.returncode != 0) with
          | false => simp [check_binary_for_symbols, h1, h2, isEmpty_false_iff]
          | true => simp [check_binary_for_symbols, h1, h2]

/-- C2: for an existing binary the scanner always invokes the first tool; it
invokes the fallback tool iff the first tool completed with a non-zero exit
status; and if both tools complete with non-zero status, the result is
`passed = true` with a warning (fail-open), never a failure. -/
theorem C2_fallback_chain (nmRun objdumpRun : Except String ProcResult) :
    (check_binary_for_symbols true nmRun objdumpRun).invokedNm = true ∧
    ((check_binary_for_symbols true nmRun objdumpRun).invokedObjdump = true ↔
      ∃ r1, nmRun = Except.ok r1 ∧ r1.returncode ≠ 0) ∧
    (∀ r1 r2, nmRun = Except.ok r1 → objdumpRun = Except.ok r2 →
      r1.returncode ≠ 0 → r2.returncode ≠ 0 →
      (check_binary_for_symbols true nmRun objdumpRun).passed = true ∧
      (check_binary_for_symbols true nmRun objdumpRun).warned = true) := by
  cases nmRun with
  | error e => simp [check_binary_for_symbols]
  | ok r1 =>
    cases h1 : (r1.returncode != 0) with
    | false =>
      have h1' : r1.returncode = 0 := by simpa using h1
      refine ⟨by simp [check_binary_for_symbols, h1], ?_, ?_⟩
      · simp [check_binary_for_symbols, h1, h1']
      · intro r1x r2 heq hod hne
        injection heq with heq
        exact absurd (heq ▸ h1') hne
    | true =>
      have h1' : r1.returncode ≠ 0 := by simpa using h1
      cases objdumpRun with
      | error e => simp [check_binary_for_symbols, h1, h1']
      | ok r2 =>
        cases h2 : (r2.returncode != 0) with
        | false =>
          have h2' : r2.returncode = 0 := by simpa using h2
          simp [check_binary_for_symbols, h1, h2, h1', h2']
        | true => simp [check_binary_for_symbols, h1, h2, h1']

/-- C2 witness: both tools exiting with status 1 gives a fail-open pass with
a warning. -/
theorem C2_witness :
    (check_binary_for_symbols true (Except.ok ⟨1, ""⟩) (Except.ok ⟨1, ""⟩)).passed = true ∧
    (check_binary_for_symbols true (Except.ok ⟨1, ""⟩) (Except.ok ⟨1, ""⟩)).warned = true :=
  (C2_fallback_chain (Except.ok ⟨1, ""⟩) (Except.ok ⟨1, ""⟩)).2.2 ⟨1, ""⟩ ⟨1, ""⟩ rfl rfl
    (by decide) (by decide)

/-- C3: a non-existent binary path yields an immediate fail-open pass with a
warning, no tool is invoked, and the overall exit code is the same as if no
binary path had been supplied at all. -/
theorem C3_missing_binary (files : List SrcFile) (nmRun objdumpRun : Except String ProcResult) :
    check_binary_for_symbols false nmRun objdumpRun =
      { passed := true, invokedNm := false, invokedObjdump := false,
        foundSymbols := [], warned := true } ∧
    main_exit files (some (false, nmRun, objdumpRun)) = main_exit files none := by
  exact ⟨rfl, rfl⟩

/-- C4: the exit code is 0 iff the spec's `overallPassed` conjunction holds,
the exit code is always 0 or 1, and with no binary argument it is 0 iff the
source scan passed. -/
theorem C4_exit_code (files : List SrcFile)
    (binaryArg : Option (Bool × Except String ProcResult × Except String ProcResult)) :
    (main_exit files binaryArg = 0 ↔ overallPassed_spec files binaryArg = true) ∧
    (main_exit files binaryArg = 0 ∨ main_exit files binaryArg = 1) ∧
    (main_exit files none = 0 ↔ (check_source_code files).passed = true) := by
  have key : ∀ a b : Bool, ((if !a || !b then (1 : Nat) else 0) = 0 ↔ (a && b) = true) ∧
      ((if !a || !b then (1 : Nat) else 0) = 0 ∨ (if !a || !b then (1 : Nat) else 0) = 1) ∧
      ((if !a || !true then (1 : Nat) else 0) = 0 ↔ a = true) := by decide
  refine ⟨?_, ?_, ?_⟩
  · cases binaryArg with
    | none => exact (key (check_source_code files).passed true).1
    | some b =>
      obtain ⟨ex, nmRun, objdumpRun⟩ := b
      exact (key (check_source_code files).passed
        (check_binary_for_symbols ex nmRun objdumpRun).passed).1
  · cases binaryArg with
    | none => exact (key (check_source_code files).passed true).2.1
    | some b =>
      obtain ⟨ex, nmRun, objdumpRun⟩ := b
      exact (key (check_source_code files).passed
        (check_binary_for_symbols ex nmRun objdumpRun).passed).2.1
  · exact (key (check_source_code files).passed true).2.2

/-- C5: for both scanners, `passed` is true iff the collected match list is
empty; with a dump obtained (from the first tool or from the fallback), the
binary scanner fails exactly when some binary-symbol pattern occurs in the
dump, and collects all such patterns; the source scanner fails exactly when
some eligible, readable file's content contains a source-text pattern. -/
theorem C5_passed_iff_matches (files : List SrcFile) (out : String)
    (objdumpRun : Except String ProcResult) :
    ((check_binary_for_symbols true (Except.ok ⟨0, out⟩) objdumpRun).foundSymbols
        = FORBIDDEN_SYMBOLS.filter (fun s => strIn s out)) ∧
    ((check_binary_for_symbols true (Except.ok ⟨0, out⟩) objdumpRun).passed = true ↔
      (check_binary_for_symbols true (Except.ok ⟨0, out⟩) objdumpRun).foundSymbols = []) ∧
    ((check_binary_for_symbols true (Except.ok ⟨0, out⟩) objdumpRun).passed = false ↔
      ∃ s ∈ FORBIDDEN_SYMBOLS, strIn s out = true) ∧
    ((check_binary_for_symbols true (Except.ok ⟨1, ""⟩) (Except.ok ⟨0, out⟩)).foundSymbols
        = FORBIDDEN_SYMBOLS.filter (fun s => strIn s out)) ∧
    ((check_binary_for_symbols true (Except.ok ⟨1, ""⟩) (Except.ok ⟨0, out⟩)).passed = false ↔
      ∃ s ∈ FORBIDDEN_SYMBOLS, strIn s out = true) ∧
    ((check_source_code files).passed = true ↔ (check_source_code files).issues = []) ∧
    ((check_source_code files).passed = false ↔
      ∃ f ∈ files, eligibleExt f.name = true ∧ ∃ c, f.content = some c ∧
        ∃ p ∈ forbidden_imports, strIn p c = true) := by
  have hred : check_binary_for_symbols true (Except.ok ⟨0, out⟩) objdumpRun =
      { passed := (FORBIDDEN_SYMBOLS.filter (fun s => strIn s out)).isEmpty,
        invokedNm := true, invokedObjdump := false,
        foundSymbols := FORBIDDEN_SYMBOLS.filter (fun s => strIn s out),
        warned := false } := rfl
  have hred2 : check_binary_for_symbols true (Except.ok ⟨1, ""⟩) (Except.ok ⟨0, out⟩) =
      { passed := (FORBIDDEN_SYMBOLS.filter (fun s => strIn s out)).isEmpty,
        invokedNm := true, invokedObjdump := true,
        foundSymbols := FORBIDDEN_SYMBOLS.filter (fun s => strIn s out),
        warned := false } := rfl
  refine ⟨by rw [hred], ?_, ?_, by rw [hred2], ?_, ?_, ?_⟩
  · rw [hred]
    exact List.isEmpty_iff
  · rw [hred]
    show (FORBIDDEN_SYMBOLS.filter (fun s => strIn s out)).isEmpty = false ↔ _
    rw [isEmpty_false_iff]
    exact filter_ne_nil_iff _ _
  · rw [hred2]
    show (FORBIDDEN_SYMBOLS.filter (fun s => strIn s out)).isEmpty = false ↔ _
    rw [isEmpty_false_iff]
    exact filter_ne_nil_iff _ _
  · exact List.isEmpty_iff
  · exact source_failed_iff files

/-- C6, counterexample: the scanner does not sort the walked files, so two
traversals of the same file set (a permutation) can yield differently
ordered match sequences — stability of the ordering is not ensured by the
code for the same tree contents. -/
theorem C6_counterexample :
    [fileA, fileB].Perm [fileB, fileA] ∧
    (check_source_code [fileA, fileB]).issues ≠ (check_source_code [fileB, fileA]).issues := by
  constructor
  · exact List.Perm.swap fileB fileA []
  · decide

/-- C6, amended: the scan is a pure function of the traversal listing, so an
unchanged enumeration gives identical results, and the verdict is invariant
under reordering of the traversal; but the match ordering follows the
(unsorted) `os.walk` enumeration order, not a lexicographic one. -/
theorem C6_verdict_perm_invariant (files1 files2 : List SrcFile) (h : files1.Perm files2) :
    (check_source_code files1).passed = (check_source_code files2).passed := by
  show ((files1.map fileIssues).flatten).isEmpty = ((files2.map fileIssues).flatten).isEmpty
  have hp : ((files1.map fileIssues).flatten).Perm ((files2.map fileIssues).flatten) :=
    (h.map fileIssues).flatten
  rw [Bool.eq_iff_iff, List.isEmpty_iff, List.isEmpty_iff]
  constructor
  · intro he
    exact (he ▸ hp).symm.eq_nil
  · intro he
    exact (he ▸ hp.symm).symm.eq_nil

/-- C6 witness: the two orderings of the same two files give equal verdicts. -/
theorem C6_verdict_perm_invariant_witness :
    (check_source_code [fileA, fileB]).passed = (check_source_code [fileB, fileA]).passed :=
  C6_verdict_perm_invariant [fileA, fileB] [fileB, fileA] (List.Perm.swap fileB fileA [])

/-- C7: an eligible readable file whose content contains two distinct
source-text patterns (taken in registry order) contributes both matches — in
registry order — to its own issue list and to the overall scan, which hence
has at least two matches for that file. -/
theorem C7_two_matches (pre post : List SrcFile) (f : SrcFile) (c p q : String)
    (hel : eligibleExt f.name = true) (hc : f.content = some c)
    (hreg : [p, q].Sublist forbidden_imports)
    (hp : strIn p c = true) (hq : strIn q c = true) :
    [f.path ++ ": " ++ p, f.path ++ ": " ++ q].Sublist (fileIssues f) ∧
    2 ≤ (fileIssues f).length ∧
    [f.path ++ ": " ++ p, f.path ++ ": " ++ q].Sublist
      (check_source_code (pre ++ f :: post)).issues := by
  have hfi : fileIssues f =
      (forbidden_imports.filter (fun r => strIn r c)).map (fun r => f.path ++ ": " ++ r) := by
    simp [fileIssues, hel, hc]
  have hsub : [p, q].Sublist (forbidden_imports.filter (fun r => strIn r c)) := by
    have hflt := hreg.filter (fun r => strIn r c)
    simpa [hp, hq] using hflt
  have h1 : [f.path ++ ": " ++ p, f.path ++ ": " ++ q].Sublist (fileIssues f) := by
    rw [hfi]
    exact hsub.map (fun r => f.path ++ ": " ++ r)
  refine ⟨h1, by simpa using h1.length_le, ?_⟩
  have h2 : (fileIssues f).Sublist ((check_source_code (pre ++ f :: post)).issues) := by
    show (fileIssues f).Sublist (((pre ++ f :: post).map fileIssues).flatten)
    rw [List.map_append, List.map_cons, List.flatten_append, List.flatten_cons]
    exact (List.sublist_append_left (fileIssues f) ((post.map fileIssues).flatten)).trans
      (List.sublist_append_right ((pre.map fileIssues).flatten) _)
  exact h1.trans h2

/-- C7 witness: a file containing both `import Network` and `NSURLConnection`
yields both matches, in registry order. -/
theorem C7_witness :
    ["W.swift" ++ ": " ++ "import Network", "W.swift" ++ ": " ++ "NSURLConnection"].Sublist
      (fileIssues fileW) ∧
    2 ≤ (fileIssues fileW).length ∧
    ["W.swift" ++ ": " ++ "import Network", "W.swift" ++ ": " ++ "NSURLConnection"].Sublist
      (check_source_code ([] ++ fileW :: [])).issues :=
  C7_two_matches [] [] fileW "import Network NSURLConnection" "import Network" "NSURLConnection"
    (by decide) rfl (by decide) (by decide) (by decide)

/-- C8: a file that could not be read contributes no match — the scan of the
remaining files is unchanged in issues and verdict — and, being eligible
(only eligible files are ever opened), its path is recorded with a warning. -/
theorem C8_unreadable_skipped (pre post : List SrcFile) (f : SrcFile)
    (h : f.content = none) :
    (check_source_code (pre ++ f :: post)).issues = (check_source_code (pre ++ post)).issues ∧
    (check_source_code (pre ++ f :: post)).passed = (check_source_code (pre ++ post)).passed ∧
    (eligibleExt f.name = true → f.path ∈ (check_source_code (pre ++ f :: post)).warnings) := by
  have hfi : fileIssues f = [] := by
    unfold fileIssues
    rw [h]
    split <;> rfl
  have hiss : (check_source_code (pre ++ f :: post)).issues
      = (check_source_code (pre ++ post)).issues := by
    show ((pre ++ f :: post).map fileIssues).flatten = ((pre ++ post).map fileIssues).flatten
    rw [List.map_append, List.map_cons, List.flatten_append, List.flatten_cons, hfi,
      List.nil_append, List.map_append, List.flatten_append]
  have hpass : ∀ l, (check_source_code l).passed = ((check_source_code l).issues).isEmpty :=
    fun l => rfl
  refine ⟨hiss, ?_, ?_⟩
  · rw [hpass, hpass, hiss]
  · intro hel
    show f.path ∈ ((pre ++ f :: post).filter fileWarn).map (fun g => g.path)
    refine List.mem_map.mpr ⟨f, List.mem_filter.mpr ⟨?_, ?_⟩, rfl⟩
    · exact List.mem_append.mpr (Or.inr (List.mem_cons_self f post))
    · simp [fileWarn, hel, h]

/-- C8 witness: an unreadable `.swift` file alone yields the empty scan's
issues and verdict, plus a warning naming the file. -/
theorem C8_witness :
    (check_source_code ([] ++ fileBad :: [])).issues = (check_source_code ([] ++ [])).issues ∧
    (check_source_code ([] ++ fileBad :: [])).passed = (check_source_code ([] ++ [])).passed ∧
    "bad.swift" ∈ (check_source_code ([] ++ fileBad :: [])).warnings := by
  obtain ⟨h1, h2, h3⟩ := C8_unreadable_skipped [] [] fileBad rfl
  exact ⟨h1, h2, h3 (by decide)⟩

/-- C9: the run always terminates with exit code 0 or 1; a spawn exception
from either tool invocation is folded into a fail-open `passed = true`; and
the exit code is 1 only when a policy violation was recorded (a nonempty
source issue list or a nonempty binary symbol list). -/
theorem C9_never_aborts (files : List SrcFile)
    (binaryArg : Option (Bool × Except String ProcResult × Except String ProcResult)) :
    (main_exit files binaryArg = 0 ∨ main_exit files binaryArg = 1) ∧
    (∀ (ex : Bool) (objdumpRun : Except String ProcResult) (msg : String),
      (check_binary_for_symbols ex (Except.error msg) objdumpRun).passed = true) ∧
    (∀ (ex : Bool) (r1 : ProcResult) (msg : String), r1.returncode ≠ 0 →
      (check_binary_for_symbols ex (Except.ok r1) (Except.error msg)).passed = true) ∧
    (main_exit files binaryArg = 1 →
      (check_source_code files).issues ≠ [] ∨
      ∃ ex nmRun objdumpRun, binaryArg = some (ex, nmRun, objdumpRun) ∧
        (check_binary_for_symbols ex nmRun objdumpRun).foundSymbols ≠ []) := by
  refine ⟨?_, ?_, ?_, ?_⟩
  · unfold main_exit
    split
    · right
      rfl
    · left
      rfl
  · intro ex objdumpRun msg
    cases ex <;> rfl
  · intro ex r1 msg hne
    cases ex with
    | false => rfl
    | true =>
      have hb : (r1.returncode != 0) = true := by simpa using hne
      simp [check_binary_for_symbols, hb]
  · intro hmain
    cases hs : (check_source_code files).passed with
    | false => exact Or.inl ((source_passed_false_iff files).mp hs)
    | true =>
      refine Or.inr ?_
      cases binaryArg with
      | none => simp [main_exit, hs] at hmain
      | some b =>
        obtain ⟨ex, nmRun, objdumpRun⟩ := b
        cases hbp : (check_binary_for_symbols ex nmRun objdumpRun).passed with
        | false =>
          exact ⟨ex, nmRun, objdumpRun, rfl,
            (binary_passed_false_iff ex nmRun objdumpRun).mp hbp⟩
        | true => simp [main_exit, hs, hbp] at hmain

/-- C9 witness: with one violating source file and no binary argument the
exit code is 1 and the violation is a nonempty issue list; spawn errors at
either stage still give `passed = true`. -/
theorem C9_witness :
    (main_exit [fileV] none = 0 ∨ main_exit [fileV] none = 1) ∧
    (check_binary_for_symbols true (Except.error "nm: command not found")
        (Except.ok ⟨0, ""⟩)).passed = true ∧
    (check_binary_for_symbols true (Except.ok ⟨77, ""⟩)
        (Except.error "objdump: command not found")).passed = true ∧
    ((check_source_code [fileV]).issues ≠ [] ∨
      ∃ ex nmRun objdumpRun,
        (none : Option (Bool × Except String ProcResult × Except String ProcResult))
          = some (ex, nmRun, objdumpRun) ∧
        (check_binary_for_symbols ex nmRun objdumpRun).foundSymbols ≠ []) := by
  obtain ⟨h1, h2, h3, h4⟩ := C9_never_aborts [fileV] none
  exact ⟨h1, h2 true (Except.ok ⟨0, ""⟩) "nm: command not found",
    h3 true ⟨77, ""⟩ "objdump: command not found" (by decide), h4 (by decide)⟩

/-- C10: if spawning the first tool raises, the scanner returns
`passed = true` and the fallback tool is never invoked — whatever the
fallback would have returned — and the fallback is invoked only when the
first tool ran and exited with non-zero status. -/
theorem C10_no_fallback_on_spawn_error (objdumpRun nmRun : Except String ProcResult)
    (msg : String) :
    (check_binary_for_symbols true (Except.error msg) objdumpRun).passed = true ∧
    (check_binary_for_symbols true (Except.error msg) objdumpRun).invokedObjdump = false ∧
    ((check_binary_for_symbols true nmRun objdumpRun).invokedObjdump = true →
      ∃ r1, nmRun = Except.ok r1 ∧ r1.returncode ≠ 0) := by
  refine ⟨rfl, rfl, ?_⟩
  intro h
  cases nmRun with
  | error e => simp [check_binary_for_symbols] at h
  | ok r1 =>
    cases h1 : (r1.returncode != 0) with
    | true => exact ⟨r1, rfl, by simpa using h1⟩
    | false => simp [check_binary_for_symbols, h1] at h

/-- C10 witness: the fallback is skipped even though it is available and its
dump contains the forbidden symbol `URLSession`; and an invoked fallback
implies the first tool exited non-zero. -/
theorem C10_witness :
    (check_binary_for_symbols true (Except.error "nm: command not found")
        (Except.ok ⟨0, "URLSession"⟩)).passed = true ∧
    (check_binary_for_symbols true (Except.error "nm: command not found")
        (Except.ok ⟨0, "URLSession"⟩)).invokedObjdump = false ∧
    ∃ r1, (Except.ok ⟨3, ""⟩ : Except String ProcResult) = Except.ok r1 ∧ r1.returncode ≠ 0 := by
  obtain ⟨h1, h2, _⟩ := C10_no_fallback_on_spawn_error (Except.ok ⟨0, "URLSession"⟩)
    (Except.ok ⟨3, ""⟩) "nm: command not found"
  obtain ⟨_, _, h3⟩ := C10_no_fallback_on_spawn_error (Except.ok ⟨0, "URLSession"⟩)
    (Except.ok ⟨3, ""⟩) "nm: command not found"
  exact ⟨h1, h2, h3 (by decide)⟩
